import Mathlib

/-!
Shallow embedding of the state-management core of the telegram-front client:
the conversation-synchronizer hook (src/hooks/useChat.ts), the socket wrapper
(useSocket), the auth context (AuthProvider), and the two HTTP gateway
wrappers (useApi's apiCall and utils/apiInterceptor's ApiInterceptor.request).

JavaScript `Record<string, T>` maps read through `prev[k] || []` are embedded
as total functions `String → List T` with default `[]`, which is exactly the
observable access pattern the source uses.  Machine integers do not occur:
the only numbers are HTTP status codes and unread counters, both naturals.
-/

/-- A chat message (src/types: `Message`).  Only the fields the synchronizer
reads are carried; timestamps and the denormalized sender object are not
consulted by any of the handlers embedded here. -/
structure Message where
  id : String
  chatId : String
  senderId : String
  text : String
  deriving DecidableEq

/-- A conversation entry of the react-query `["chats"]` cache (src/types:
`Chat`), restricted to the fields the `onMessage` handler mutates or reads. -/
structure Chat where
  id : String
  unreadCount : Nat
  lastMessage : Option Message
  deriving DecidableEq

/-- The local state of the `useChat` hook plus the option flags it was called
with.  `messages` embeds `Record<string, Message[]>` (read as
`prev[chatId] || []`), `typingUsers` embeds `Record<string, string[]>`,
`chats` embeds the query-cache entry `["chats"]`. -/
@[ext]
structure ChatState where
  selectedChatId : Option String
  messages : String → List Message
  typingUsers : String → List String
  chats : List Chat
  autoConnect : Bool
  isConnected : Bool
  markAsReadOnView : Bool
  enableTypingIndicators : Bool

/-- The hook's initial state: nothing selected, empty caches, default options. -/
def initChatState : ChatState :=
  { selectedChatId := none
    messages := fun _ => []
    typingUsers := fun _ => []
    chats := []
    autoConnect := true
    isConnected := true
    markAsReadOnView := true
    enableTypingIndicators := true }

/-- The `onMessage` socket subscriber (useChat.ts lines 205–228): appends the
inbound message to its conversation's sequence (`[...(prev[chatId] || []),
message]`, with no duplicate check), and maps over the `["chats"]` cache
setting `lastMessage` and `unreadCount + 1` on the matching chat.  The
trailing `markAsReadOnView` branch only schedules a deferred server call
(`markAsReadMutation` after 1000 ms) and mutates no local state, so it
contributes nothing to this state transition. -/
def onMessage (m : Message) (s : ChatState) : ChatState :=
  { s with
    messages := fun cid =>
      if cid = m.chatId then s.messages m.chatId ++ [m] else s.messages cid
    chats := s.chats.map fun chat =>
      if chat.id = m.chatId then
        { chat with lastMessage := some m, unreadCount := chat.unreadCount + 1 }
      else chat }

/-- Folds a sequence of inbound `newMessage` events through `onMessage` in
arrival order. -/
def runOnMessages (events : List Message) (s : ChatState) : ChatState :=
  events.foldl (fun st m => onMessage m st) s

/-- The `onTyping` socket subscriber (useChat.ts lines 239–257): when typing
indicators are enabled, re-adds the sender at the end of the conversation's
typing list (`filter(id => id !== userId)` then append).  The 3000 ms decay
it schedules is embedded separately as `typingDecayFire`. -/
def onTyping (userId chatId : String) (s : ChatState) : ChatState :=
  if s.enableTypingIndicators = false then s
  else
    { s with
      typingUsers := fun c =>
        if c = chatId then
          (s.typingUsers chatId).filter (fun i => i != userId) ++ [userId]
        else s.typingUsers c }

/-- The body of the 3000 ms `setTimeout` scheduled by `onTyping` (useChat.ts
lines 251–256): removes the sender from the conversation's typing list. -/
def typingDecayFire (userId chatId : String) (s : ChatState) : ChatState :=
  { s with
    typingUsers := fun c =>
      if c = chatId then (s.typingUsers chatId).filter (fun i => i != userId)
      else s.typingUsers c }

/-- The `onStopTyping` socket subscriber (useChat.ts lines 258–263): removes
the sender from the conversation's typing list immediately (same update as
the decay timer's body). -/
def onStopTyping (userId chatId : String) (s : ChatState) : ChatState :=
  { s with
    typingUsers := fun c =>
      if c = chatId then (s.typingUsers chatId).filter (fun i => i != userId)
      else s.typingUsers c }

/-- The whitespace class removed by JavaScript `String.prototype.trim`
(restricted to the characters that can occur in this client's message
texts). -/
def isJsWhitespace (c : Char) : Bool :=
  c = ' ' || c = '\t' || c = '\n' || c = '\r' || c = '\x0b' || c = '\x0c'

/-- JavaScript `text.trim()`: strip leading and trailing whitespace. -/
def jsTrim (s : String) : String :=
  String.mk (((s.data.dropWhile isJsWhitespace).reverse.dropWhile
    isJsWhitespace).reverse)

/-- The `options` argument of the hook's `sendMessage` (src/types:
`SendMessageOptions`). -/
structure SendMessageOptions where
  type : Option String
  replyToId : Option String
  deriving DecidableEq

/-- The outbound transmission a `sendMessage` call performs: either the
fire-and-forget socket emit `sendMessage{chatId,text,type,replyToId}`
(useSocket lines 222–232) or the HTTP POST to `/chats/:id/messages` issued
through `sendMessageMutation`. -/
inductive SendEffect where
  | socketSend (chatId text : String) (type replyToId : Option String)
  | httpSend (chatId text : String) (type replyToId : Option String)
  deriving DecidableEq

/-- The message body carried by a send transmission. -/
def effectText : SendEffect → String
  | .socketSend _ t _ _ => t
  | .httpSend _ t _ _ => t

/-- The hook's `sendMessage` (useChat.ts lines 339–367) as a state
transition paired with the list of transmissions it issues.  The guard
`if (!selectedChatId || !text.trim()) return` is embedded with JavaScript
truthiness: a `null` or empty-string chat id and an empty trimmed text are
all falsy.  The socket path forwards `text` unchanged; the HTTP fallback
sends `text.trim()`.  Neither path mutates local state at issue time (the
fallback's optimistic append happens in the mutation's `onSuccess`, i.e.
only once a response arrives). -/
def sendMessageIntent (text : String) (opts : SendMessageOptions)
    (s : ChatState) : ChatState × List SendEffect :=
  match s.selectedChatId with
  | none => (s, [])
  | some cid =>
    if cid = "" ∨ jsTrim text = "" then (s, [])
    else if s.autoConnect && s.isConnected then
      (s, [SendEffect.socketSend cid text opts.type opts.replyToId])
    else
      (s, [SendEffect.httpSend cid (jsTrim text) opts.type opts.replyToId])

/-- The request frame `getMessages{chatId,limit,cursor}` emitted with an
acknowledgment callback; the promise wrapping it is resolved exactly when
the server invokes that callback — no client-side code resolves it. -/
structure GetMessagesCall where
  chatId : String
  limit : Option Nat
  cursor : Option String
  deriving DecidableEq

/-- The socket wrapper's `getMessages` (useSocket lines 246–252):
`if (socketRef.current && isConnected)` it returns a promise pending on the
server's acknowledgment (`some call`); otherwise the function falls through
and returns `undefined` — embedded as `none`: no promise is created at
all. -/
def socketGetMessages (hasSocket conn : Bool) (chatId : String)
    (limit : Option Nat) (cursor : Option String) : Option GetMessagesCall :=
  if hasSocket && conn then some { chatId := chatId, limit := limit, cursor := cursor }
  else none

/-- The durable client storage keys the auth code touches (`localStorage`:
"token", "user", "loginTime"). -/
structure StoredAuth where
  token : Option String
  user : Option String
  loginTime : Option String
  deriving DecidableEq

/-- The auth reducer's state (src/types `AuthState` plus `isLoading`). -/
structure AuthState where
  token : Option String
  isAuthenticated : Bool
  isLoading : Bool
  deriving DecidableEq

/-- The `AuthAction` variants of the auth context. -/
inductive AuthAction where
  | loginSuccess (token : String)
  | logoutAction
  | restoreSession (token : String)
  | setLoading (b : Bool)

/-- `authReducer` from the auth context (avatar.tsx lines 85–111),
case-for-case. -/
def authReducer (state : AuthState) (action : AuthAction) : AuthState :=
  match action with
  | .loginSuccess t => { token := some t, isAuthenticated := true, isLoading := false }
  | .restoreSession t => { token := some t, isAuthenticated := true, isLoading := false }
  | .logoutAction => { token := none, isAuthenticated := false, isLoading := false }
  | .setLoading b => { state with isLoading := b }

/-- `logout` (avatar.tsx lines 250–257): removes the "token", "user" and
"loginTime" storage keys and dispatches LOGOUT.  It is a total function —
it cannot fail. -/
def logout (storage : StoredAuth) (s : AuthState) : StoredAuth × AuthState :=
  ({ storage with token := none, user := none, loginTime := none },
    authReducer s .logoutAction)

/-- `initializeAuth` (avatar.tsx lines 149–185): dispatch SET_LOADING true,
read the stored token; if present, `const validUser = true` makes the
restore branch unconditional (the token-invalid branch is dead code);
otherwise dispatch SET_LOADING false. -/
def initializeAuth (storage : StoredAuth) (s : AuthState) :
    StoredAuth × AuthState :=
  let s1 := authReducer s (.setLoading true)
  match storage.token with
  | some t =>
    let validUser := true
    if validUser then (storage, authReducer s1 (.restoreSession t))
    else ({ storage with token := none, user := none },
      authReducer s1 (.setLoading false))
  | none => (storage, authReducer s1 (.setLoading false))

/-- What one gateway call through `useApi().apiCall` leaves behind: the
storage and auth state (mutated via the `logout` it invokes on 401), how
many times that expiry handler ran, and the call's outcome — the thrown
error message or the returned response (identified by its status). -/
structure GatewayOutcome where
  storage : StoredAuth
  auth : AuthState
  expiryCallbackCount : Nat
  result : Except String Nat

/-- `apiCall` from `useApi` (the api/index hook, lines 7–31), run against a
stream of fetch responses (statuses): it consumes exactly one response; on
`status === 401` it invokes `logout()` (the registered expiry handler) and
throws "Session expired. Please login again."; any other response is
returned as-is.  `none` models the degenerate empty stream. -/
def apiCall (storage : StoredAuth) (auth : AuthState) (responses : List Nat) :
    Option (GatewayOutcome × List Nat) :=
  match responses with
  | [] => none
  | status :: rest =>
    if status = 401 then
      let cleared := logout storage auth
      some ({ storage := cleared.1, auth := cleared.2, expiryCallbackCount := 1,
              result := Except.error "Session expired. Please login again." }, rest)
    else
      some ({ storage := storage, auth := auth, expiryCallbackCount := 0,
              result := Except.ok status }, rest)

/-- What one `ApiInterceptor.request` call leaves behind (the interceptor
holds no reducer state; it only touches storage and its optional
`onTokenExpired` callback). -/
structure InterceptorOutcome where
  storage : StoredAuth
  expiryCallbackCount : Nat
  result : Except String Nat

/-- `ApiInterceptor.request` (utils/apiInterceptor.ts lines 24–55), run
against a stream of fetch responses: it consumes exactly one; on
`status === 401 && requiresAuth` it removes the "token" and "user" keys,
invokes `onTokenExpired` if one was registered, and throws "Session expired.
Please login again."; otherwise the response is returned unchanged —
including a 401 when `requiresAuth` is `false`. -/
def interceptorRequest (requiresAuth hasExpiryCallback : Bool)
    (storage : StoredAuth) (responses : List Nat) :
    Option (InterceptorOutcome × List Nat) :=
  match responses with
  | [] => none
  | status :: rest =>
    if status = 401 ∧ requiresAuth = true then
      some ({ storage := { storage with token := none, user := none },
              expiryCallbackCount := if hasExpiryCallback then 1 else 0,
              result := Except.error "Session expired. Please login again." }, rest)
    else
      some ({ storage := storage, expiryCallbackCount := 0,
              result := Except.ok status }, rest)

/-- `Response.ok` of the fetch API: status in the 2xx range. -/
def fetchOk (status : Nat) : Bool :=
  decide (200 ≤ status ∧ status < 300)

/-- The outcome component of one `apiCall` as seen by the endpoint helpers in
src/api/chats.ts: the 401 gate rethrows the session-expired error, every
other response is handed back. -/
def httpCallResult (status : Nat) : Except String Nat :=
  if status = 401 then Except.error "Session expired. Please login again."
  else Except.ok status

/-- `getChats` (chats.ts lines 37–43): `api.get("/chats")`, then
`if (!response.ok) throw new Error("Failed to fetch chats")`, else the
parsed body (identified here by the status it arrived with). -/
def getChats (status : Nat) : Except String Nat :=
  match httpCallResult status with
  | Except.error e => Except.error e
  | Except.ok s => if fetchOk s = true then Except.ok s
    else Except.error "Failed to fetch chats"

/-- `sendMessage` of chats.ts (lines 226–240): `api.post`, then
`if (!response.ok) throw new Error("Failed to send message")`. -/
def sendMessageHttp (status : Nat) : Except String Nat :=
  match httpCallResult status with
  | Except.error e => Except.error e
  | Except.ok s => if fetchOk s = true then Except.ok s
    else Except.error "Failed to send message"

/-- `needle` occurs contiguously inside `hay` — the reading of an error
"carrying" a piece of information as a substring of its message. -/
def stringContains (hay needle : String) : Prop :=
  needle.data <:+: hay.data

/-- The Live Channel's join state: the selected chat id kept by the hook,
the transport's connection flag, and the set (as a duplicate-free list in
join order) of conversations currently joined on the channel. -/
structure ChannelState where
  selected : Option String
  connected : Bool
  joined : List String
  deriving DecidableEq

/-- `joinChat` of the socket wrapper (useSocket lines 234–238): the
`joinChat{chatId}` frame is emitted only while connected; the server then
adds the connection to the conversation's room. -/
def joinEmit (conn : Bool) (joined : List String) (chatId : String) :
    List String :=
  if conn then (if chatId ∈ joined then joined else joined ++ [chatId])
  else joined

/-- `leaveChat` of the socket wrapper (useSocket lines 240–244): the
`leaveChat{chatId}` frame is emitted only while connected. -/
def leaveEmit (conn : Bool) (joined : List String) (chatId : String) :
    List String :=
  if conn then joined.filter (fun c => c != chatId) else joined

/-- The events that drive the channel's join state: a `selectChat(id)` call,
and the transport dropping or re-establishing the connection. -/
inductive ChannelEvent where
  | select (chatId : String)
  | dropConnection
  | reconnect
  deriving DecidableEq

/-- The leave half of `selectChat` (useChat.ts lines 304–307):
`if (selectedChatId && autoConnect)` — JavaScript truthiness, so an
empty-string id is falsy — emit `leaveChat` for the previously selected
conversation. -/
def selectLeave (autoConnect : Bool) (s : ChannelState) : List String :=
  match s.selected with
  | some prev =>
    if prev ≠ "" ∧ autoConnect = true then leaveEmit s.connected s.joined prev
    else s.joined
  | none => s.joined

/-- One step of the channel's join state.  `select` embeds `selectChat`
(useChat.ts lines 302–328): leave the previous conversation via
`selectLeave`, set the new id, `if (autoConnect && isConnected)` join the
new one.  A transport disconnect destroys the connection and with it every
room membership the server held for it, so `dropConnection` empties the
joined set; `reconnect` restores only the connection — the code has no
rejoin logic. -/
def channelStep (autoConnect : Bool) (s : ChannelState) :
    ChannelEvent → ChannelState
  | .select chatId =>
    let j1 := selectLeave autoConnect s
    let j2 := if autoConnect && s.connected then joinEmit s.connected j1 chatId
      else j1
    { selected := some chatId, connected := s.connected, joined := j2 }
  | .dropConnection => { s with connected := false, joined := [] }
  | .reconnect => { s with connected := true }

/-- The channel before anything happened: nothing selected, transport not
yet connected, no room joined. -/
def channelInit : ChannelState :=
  { selected := none, connected := false, joined := [] }

/-- Runs a sequence of channel events from a state. -/
def channelRun (autoConnect : Bool) (s : ChannelState)
    (events : List ChannelEvent) : ChannelState :=
  events.foldl (channelStep autoConnect) s

/-- The inductive invariant of the channel's join state: either no room is
joined, or join/leave traffic is enabled (`autoConnect`), the transport is
connected, and exactly the selected conversation is joined. -/
def channelInv (autoConnect : Bool) (s : ChannelState) : Prop :=
  s.joined = [] ∨
    (autoConnect = true ∧ s.connected = true ∧
      ∃ id, id ≠ "" ∧ s.selected = some id ∧ s.joined = [id])

/-- A concrete message used by witnesses and counterexamples. -/
def wMsg : Message := { id := "m1", chatId := "c1", senderId := "u2", text := "hello" }

/-- A concrete chat with no unread messages. -/
def wChat : Chat := { id := "c1", unreadCount := 0, lastMessage := none }

/-- A concrete hook state: chat "c9" is the active one, "c1" is in the list. -/
def wState : ChatState :=
  { selectedChatId := some "c9"
    messages := fun _ => []
    typingUsers := fun _ => []
    chats := [wChat]
    autoConnect := true
    isConnected := true
    markAsReadOnView := true
    enableTypingIndicators := true }

/-- A concrete hook state with "c1" active and the socket connected. -/
def wSendState : ChatState :=
  { selectedChatId := some "c1"
    messages := fun _ => []
    typingUsers := fun _ => []
    chats := []
    autoConnect := true
    isConnected := true
    markAsReadOnView := true
    enableTypingIndicators := true }

/-- A concrete storage snapshot holding a persisted credential. -/
def wStorage : StoredAuth :=
  { token := some "tok", user := some "u", loginTime := some "t" }

/-- An event whose conversation id (if any) is a real, nonempty id — chat
identifiers handed out by the server are never the empty string. -/
def goodEvent : ChannelEvent → Bool
  | .select c => c != ""
  | _ => true

/-- A concrete event trace: two selections, a transport drop, a selection
while disconnected, a reconnect, and a further selection. -/
def wEvents : List ChannelEvent :=
  [.select "c1", .select "c2", .dropConnection, .select "c3", .reconnect,
    .select "c4"]

/-! ## Theorems -/

/-- Appending one inbound message changes exactly one conversation's
sequence, by appending to it. -/
theorem onMessage_messages (m : Message) (s : ChatState) (c : String) :
    (onMessage m s).messages c =
      if c = m.chatId then s.messages c ++ [m] else s.messages c := by
  by_cases h : c = m.chatId <;> simp [onMessage, h]

/-- C1 (amended): the `onMessage` handler appends every inbound message to
its conversation's sequence unconditionally, with no deduplication: after a
sequence of inbound events, a conversation's sequence is its prior content
followed by all received messages for it, in arrival order and with
duplicate identifiers retained. -/
theorem inbound_messages_appended_without_dedup (events : List Message)
    (s : ChatState) (c : String) :
    (runOnMessages events s).messages c =
      s.messages c ++ events.filter (fun m => m.chatId == c) := by
  induction events generalizing s with
  | nil => simp [runOnMessages]
  | cons m es ih =>
    show (runOnMessages es (onMessage m s)).messages c = _
    rw [ih (onMessage m s), onMessage_messages]
    by_cases h : c = m.chatId
    · simp [h, List.append_assoc]
    · have h2 : (m.chatId == c) = false := by
        simp [Ne.symm h]
      simp [h, h2]

/-- C1 (counterexample): receiving the same message event (identifier "m1")
twice for conversation "c1" leaves two entries with identifier "m1" in
"c1"'s sequence — the claimed deduplication by identifier does not exist in
the handler. -/
theorem duplicate_message_id_appended_twice :
    ((runOnMessages [wMsg, wMsg] initChatState).messages "c1").countP
      (fun m => m.id == "m1") = 2 := by
  decide

/-- C2: a `newMessage` event for conversation `c` increments `c`'s unread
counter by exactly one and sets its last-message pointer to the received
message, for whichever entry of the chat-list cache matches `c`, and the
chat-list update is computed independently of which conversation is
currently selected. -/
theorem newMessage_increments_unread (s : ChatState) (m : Message)
    (chat : Chat) (o : Option String) (hmem : chat ∈ s.chats)
    (hid : chat.id = m.chatId) :
    { chat with lastMessage := some m, unreadCount := chat.unreadCount + 1 }
        ∈ (onMessage m s).chats ∧
      (onMessage m { s with selectedChatId := o }).chats =
        (onMessage m s).chats := by
  constructor
  · have h := List.mem_map_of_mem
      (fun ch => if ch.id = m.chatId then
        { ch with lastMessage := some m, unreadCount := ch.unreadCount + 1 }
        else ch) hmem
    simpa [onMessage, hid] using h
  · rfl

/-- C2 (witness): the chat "c1" sits at unread count 0 in the cache while
"c9" is the selected conversation; one `newMessage` event for "c1" yields
unread count 1 and last message `wMsg`, and selecting nothing instead
changes none of it. -/
theorem newMessage_increments_unread_witness :
    wChat ∈ wState.chats ∧ wChat.id = wMsg.chatId ∧
      ({ wChat with lastMessage := some wMsg, unreadCount := wChat.unreadCount + 1 } ∈ (onMessage wMsg wState).chats ∧
        (onMessage wMsg { wState with selectedChatId := none }).chats =
          (onMessage wMsg wState).chats) :=
  ⟨by decide, by decide,
    newMessage_increments_unread wState wMsg wChat none (by decide) (by decide)⟩

/-- A list all of whose elements satisfy `p` is dropped entirely by
`dropWhile p`. -/
theorem dropWhile_eq_nil_of_all (p : α → Bool) :
    ∀ l : List α, l.all p = true → l.dropWhile p = []
  | [], _ => rfl
  | a :: l, h => by
    have h' := List.all_eq_true.mp h
    have ha : p a = true := h' a (List.mem_cons_self a l)
    rw [List.dropWhile_cons, if_pos ha]
    exact dropWhile_eq_nil_of_all p l
      (List.all_eq_true.mpr fun x hx => h' x (List.mem_cons_of_mem a hx))

/-- Trimming a whitespace-only text yields the empty string. -/
theorem jsTrim_eq_empty_of_all_ws (text : String)
    (h : text.data.all isJsWhitespace = true) : jsTrim text = "" := by
  unfold jsTrim
  rw [dropWhile_eq_nil_of_all _ _ h]
  rfl

/-- C6: a `sendMessage` call with a whitespace-only text, or issued while no
conversation is selected, leaves the hook state (in particular every
conversation's message sequence) unchanged and performs no transmission —
no socket emit and no HTTP send. -/
theorem send_whitespace_or_no_chat_is_noop (s : ChatState) (text : String)
    (opts : SendMessageOptions)
    (h : text.data.all isJsWhitespace = true ∨ s.selectedChatId = none) :
    sendMessageIntent text opts s = (s, []) := by
  cases hsel : s.selectedChatId with
  | none => simp [sendMessageIntent, hsel]
  | some cid =>
    rcases h with hws | hnone
    · simp [sendMessageIntent, hsel, jsTrim_eq_empty_of_all_ws text hws]
    · rw [hsel] at hnone
      exact absurd hnone (by simp)

/-- C6 (witness): sending the two-space text "  " while chat "c1" is active
changes nothing and transmits nothing. -/
theorem send_whitespace_or_no_chat_is_noop_witness :
    ("  ".data.all isJsWhitespace = true) ∧
      sendMessageIntent "  " { type := none, replyToId := none } wSendState =
        (wSendState, []) :=
  ⟨by decide,
    send_whitespace_or_no_chat_is_noop wSendState "  "
      { type := none, replyToId := none } (Or.inl (by decide))⟩

/-- C7: an explicit `stop_typing` event removes the sender from the
conversation's typing set at once, and the 3000 ms decay timer scheduled by
an earlier `typing` event, firing after that removal, is a redundant no-op:
it re-applies the same removal to a list no longer containing the sender
and leaves the whole state unchanged (in particular it cannot error or
re-add the user). -/
theorem stop_typing_immediate_and_stale_timer_noop (s : ChatState)
    (u c : String) :
    u ∉ (onStopTyping u c s).typingUsers c ∧
      typingDecayFire u c (onStopTyping u c s) = onStopTyping u c s := by
  constructor
  · simp [onStopTyping, List.mem_filter]
  · ext1
    case selectedChatId => rfl
    case messages => rfl
    case chats => rfl
    case autoConnect => rfl
    case isConnected => rfl
    case markAsReadOnView => rfl
    case enableTypingIndicators => rfl
    case typingUsers =>
      funext k
      show (if k = c then
          ((onStopTyping u c s).typingUsers c).filter (fun i => i != u)
        else (onStopTyping u c s).typingUsers k) =
        (onStopTyping u c s).typingUsers k
      by_cases hk : k = c
      · rw [if_pos hk, hk]
        refine List.filter_eq_self.mpr fun a ha => ?_
        have hc : (onStopTyping u c s).typingUsers c =
            (s.typingUsers c).filter (fun i => i != u) := by
          simp [onStopTyping]
        rw [hc] at ha
        exact (List.mem_filter.mp ha).2
      · rw [if_neg hk]

/-- C10: with an active conversation and a text that survives trimming, the
two send transports receive different payloads: the socket path transmits
the original text unchanged while the HTTP fallback transmits the trimmed
text, and the two transmitted bodies coincide exactly when the text equals
its own trim. -/
theorem send_paths_disagree_on_trim (s : ChatState) (text : String)
    (opts : SendMessageOptions) (cid : String)
    (hsel : s.selectedChatId = some cid) (hcid : cid ≠ "")
    (htext : jsTrim text ≠ "") :
    ((s.autoConnect && s.isConnected) = true →
        (sendMessageIntent text opts s).2 =
          [SendEffect.socketSend cid text opts.type opts.replyToId]) ∧
      ((s.autoConnect && s.isConnected) = false →
        (sendMessageIntent text opts s).2 =
          [SendEffect.httpSend cid (jsTrim text) opts.type opts.replyToId]) ∧
      (effectText (SendEffect.socketSend cid text opts.type opts.replyToId) =
          effectText (SendEffect.httpSend cid (jsTrim text) opts.type
            opts.replyToId) ↔ text = jsTrim text) := by
  refine ⟨fun hconn => ?_, fun hconn => ?_, Iff.rfl⟩ <;>
    simp [sendMessageIntent, hsel, hcid, htext, hconn]

/-- C10 (witness): with chat "c1" active, the text " hi " is transmitted
untrimmed on the connected socket path, and it differs from its trim —
so the two transports would not carry the same body. -/
theorem send_paths_disagree_on_trim_witness :
    jsTrim " hi " ≠ "" ∧
      (sendMessageIntent " hi " { type := none, replyToId := none }
          wSendState).2 =
        [SendEffect.socketSend "c1" " hi " none none] ∧
      " hi " ≠ jsTrim " hi " :=
  ⟨by decide,
    (send_paths_disagree_on_trim wSendState " hi "
        { type := none, replyToId := none } "c1" rfl (by decide)
        (by decide)).1 rfl,
    by decide⟩

/-- C3 (counterexample): calling the socket wrapper's `getMessages` with a
live socket object but a disconnected channel returns `undefined` — no
promise at all (`none`) — rather than a promise that never resolves. -/
theorem getMessages_disconnected_returns_no_promise :
    socketGetMessages true false "c1" (some 50) none = none ∧
      (socketGetMessages true false "c1" (some 50) none).isSome = false := by
  exact ⟨rfl, rfl⟩

/-- C3 (amended): `getMessages` creates a promise exactly when a socket
object exists and the channel is connected; that promise carries the
requested page parameters and is resolved only by the server's
acknowledgment.  When the channel is not connected the call returns
`undefined` immediately, so an awaiting caller proceeds at once with
`undefined` instead of waiting forever. -/
theorem getMessages_promise_iff_connected (hasSocket conn : Bool)
    (cid : String) (lim : Option Nat) (cur : Option String) :
    ((hasSocket && conn) = false →
        socketGetMessages hasSocket conn cid lim cur = none) ∧
      ((hasSocket && conn) = true →
        socketGetMessages hasSocket conn cid lim cur =
          some { chatId := cid, limit := lim, cursor := cur }) := by
  constructor <;> intro h <;> simp [socketGetMessages, h]

/-- C3 (witness): concretely, a disconnected channel yields no promise and a
connected one yields the pending request frame. -/
theorem getMessages_promise_iff_connected_witness :
    socketGetMessages true false "c1" (some 50) none = none ∧
      socketGetMessages true true "c1" (some 50) none =
        some { chatId := "c1", limit := some 50, cursor := none } :=
  ⟨(getMessages_promise_iff_connected true false "c1" (some 50) none).1 rfl,
    (getMessages_promise_iff_connected true true "c1" (some 50) none).2 rfl⟩

/-- C4 (counterexample): an `ApiInterceptor.request` call made with
`requiresAuth: false` that receives a 401 response returns the response
unchanged: the persisted credential survives, the expiry callback is not
invoked, and the call is not rejected — against the claim that every
gateway call receiving a 401 clears the credential, fires the callback and
rejects. -/
theorem interceptor_401_without_requiresAuth_passes_through :
    interceptorRequest false true wStorage [401] =
      some ({ storage := wStorage, expiryCallbackCount := 0,
              result := Except.ok 401 }, []) ∧
      wStorage.token = some "tok" := by
  exact ⟨rfl, rfl⟩

/-- C4 (amended): every gateway call that requires authorization — every
`useApi().apiCall`, and every `ApiInterceptor.request` except one made with
`requiresAuth: false` — reacts to a 401 response by deleting the persisted
credential, invoking the registered expiry callback exactly once, and
rejecting with the distinguished "Session expired. Please login again."
error, after consuming exactly the one response (no retry); an
`ApiInterceptor.request` with `requiresAuth: false` instead returns the 401
response unchanged. -/
theorem gateway_401_clears_credential_once (storage : StoredAuth)
    (auth : AuthState) (rest : List Nat) :
    apiCall storage auth (401 :: rest) =
        some ({ storage := { storage with token := none, user := none, loginTime := none },
                auth := { token := none, isAuthenticated := false, isLoading := false },
                expiryCallbackCount := 1,
                result := Except.error "Session expired. Please login again." },
              rest) ∧
      interceptorRequest true true storage (401 :: rest) =
        some ({ storage := { storage with token := none, user := none },
                expiryCallbackCount := 1,
                result := Except.error "Session expired. Please login again." },
              rest) ∧
      interceptorRequest false true storage (401 :: rest) =
        some ({ storage := storage, expiryCallbackCount := 0,
                result := Except.ok 401 }, rest) := by
  refine ⟨?_, ?_, ?_⟩ <;> simp [apiCall, interceptorRequest, logout, authReducer]

/-- C5 (counterexample): a 500 response to `getChats` is surfaced as the
fixed error "Failed to fetch chats", whose message contains neither the
response status "500" nor the endpoint "/chats" — against the claim that
such failures carry the failing endpoint and the response status. -/
theorem getChats_error_carries_neither_endpoint_nor_status :
    getChats 500 = Except.error "Failed to fetch chats" ∧
      ¬ stringContains "Failed to fetch chats" "500" ∧
      ¬ stringContains "Failed to fetch chats" "/chats" := by
  refine ⟨rfl, ?_, ?_⟩ <;> · show ¬ _ <:+: _; decide

/-- C5 (amended): every non-2xx response other than a 401 makes the call
fail with a fixed error message that identifies the failing operation
("Failed to fetch chats" for the chat list, "Failed to send message" for a
send) but carries neither the endpoint path nor the response status. -/
theorem http_error_is_fixed_message (status : Nat) (h401 : status ≠ 401)
    (hok : fetchOk status = false) :
    getChats status = Except.error "Failed to fetch chats" ∧
      sendMessageHttp status = Except.error "Failed to send message" := by
  constructor <;> simp [getChats, sendMessageHttp, httpCallResult, h401, hok]

/-- C5 (witness): a 500 response yields the two fixed messages. -/
theorem http_error_is_fixed_message_witness :
    (500 ≠ 401 ∧ fetchOk 500 = false) ∧
      getChats 500 = Except.error "Failed to fetch chats" ∧
      sendMessageHttp 500 = Except.error "Failed to send message" :=
  ⟨⟨by decide, by decide⟩, http_error_is_fixed_message 500 (by decide) (by decide)⟩

/-- C9: `logout` removes the persisted credential and transitions the auth
state to unauthenticated (it is a total function, so it cannot fail), and
running `initializeAuth` on the resulting storage finds no stored token and
resolves to the unauthenticated, not-loading state without touching
storage: logout followed by restore yields unauthenticated. -/
theorem logout_then_restore_unauthenticated (storage : StoredAuth)
    (s : AuthState) :
    (logout storage s).1.token = none ∧
      (logout storage s).2.isAuthenticated = false ∧
      (initializeAuth (logout storage s).1 (logout storage s).2).2.isAuthenticated
          = false ∧
      (initializeAuth (logout storage s).1 (logout storage s).2).2.token = none ∧
      (initializeAuth (logout storage s).1 (logout storage s).2).2.isLoading
          = false ∧
      (initializeAuth (logout storage s).1 (logout storage s).2).1 =
        (logout storage s).1 := by
  refine ⟨rfl, rfl, ?_, ?_, ?_, ?_⟩ <;>
    simp [logout, initializeAuth, authReducer]

/-- Under the channel invariant, the leave half of a `selectChat` call
always empties the joined set: either nothing was joined, or exactly the
previously selected conversation was, and the emitted `leaveChat` removes
it. -/
theorem selectLeave_of_inv (ac : Bool) (s : ChannelState)
    (hs : channelInv ac s) : selectLeave ac s = [] := by
  rcases hs with h0 | ⟨hac, hconn, id, hid, hsel, hj⟩
  · unfold selectLeave
    rcases h2 : s.selected with _ | prev <;> simp [h2, h0, leaveEmit]
  · unfold selectLeave
    rw [hsel]
    show (if id ≠ "" ∧ ac = true then leaveEmit s.connected s.joined id
      else s.joined) = []
    rw [if_pos ⟨hid, hac⟩, hconn, hj]
    simp [leaveEmit]

/-- Every channel event with a nonempty conversation id preserves the
channel invariant. -/
theorem channelStep_preserves_inv (ac : Bool) (s : ChannelState)
    (e : ChannelEvent) (hs : channelInv ac s) (he : goodEvent e = true) :
    channelInv ac (channelStep ac s e) := by
  cases e with
  | dropConnection => exact Or.inl rfl
  | reconnect =>
    rcases hs with h0 | ⟨hac, hconn, id, hid, hsel, hj⟩
    · exact Or.inl h0
    · exact Or.inr ⟨hac, rfl, id, hid, hsel, hj⟩
  | select c =>
    have hc : c ≠ "" := by simpa [goodEvent] using he
    have hnil := selectLeave_of_inv ac s hs
    cases hg : (ac && s.connected) with
    | true =>
      obtain ⟨hac2, hconn2⟩ : ac = true ∧ s.connected = true := by
        simpa using hg
      rw [hac2] at hnil
      have hstep : channelStep ac s (.select c) =
          { selected := some c, connected := s.connected, joined := [c] } := by
        simp [channelStep, hac2, hconn2, hnil, joinEmit]
      rw [hstep]
      exact Or.inr ⟨hac2, hconn2, c, hc, rfl, rfl⟩
    | false =>
      have hstep : channelStep ac s (.select c) =
          { selected := some c, connected := s.connected, joined := [] } := by
        simp [channelStep, hg, hnil]
      rw [hstep]
      exact Or.inl rfl

/-- Running any trace of well-formed channel events preserves the
invariant. -/
theorem channelRun_preserves_inv (ac : Bool) :
    ∀ (events : List ChannelEvent) (s : ChannelState), channelInv ac s →
      events.all goodEvent = true → channelInv ac (channelRun ac s events)
  | [], s, hs, _ => hs
  | e :: es, s, hs, hall => by
    have h1 := List.all_eq_true.mp hall e (List.mem_cons_self e es)
    have h2 : es.all goodEvent = true := List.all_eq_true.mpr
      fun x hx => List.all_eq_true.mp hall x (List.mem_cons_of_mem e hx)
    exact channelRun_preserves_inv ac es (channelStep ac s e)
      (channelStep_preserves_inv ac s e hs h1) h2

/-- C8: over any sequence of `selectChat` calls (each leaving the previous
conversation before joining the new one) interleaved with transport drops
and reconnects, at most one conversation is joined on the Live Channel at
any time. -/
theorem at_most_one_conversation_joined (ac : Bool)
    (events : List ChannelEvent) (h : events.all goodEvent = true) :
    (channelRun ac channelInit events).joined.length ≤ 1 := by
  have hinv := channelRun_preserves_inv ac events channelInit (Or.inl rfl) h
  rcases hinv with h0 | ⟨_, _, id, _, _, hj⟩
  · rw [h0]; exact Nat.zero_le 1
  · rw [hj]; exact Nat.le_refl 1

/-- C8 (witness): the concrete trace `wEvents` — selections while
connected, a drop, a selection while disconnected, a reconnect — ends, like
every prefix of it, with at most one joined conversation. -/
theorem at_most_one_conversation_joined_witness :
    wEvents.all goodEvent = true ∧
      (channelRun true channelInit wEvents).joined.length ≤ 1 :=
  ⟨by decide, at_most_one_conversation_joined true wEvents (by decide)⟩
